import Mathlib

/-!
Verification of the SCI-90 scoring engine (`calculateResult`,
`determineRiskLevel`, `getFactorInterpretation`, `parseResultFromURL`)
as a shallow embedding in Lean 4.

Answers are JavaScript array entries that are either an integer or
absent (`undefined`), modelled as `Option Int`.  The engine's float
arithmetic only ever divides small integer sums by fixed item counts
and compares the quotients against small constants, so the quotients
are modelled exactly as rationals (`Rat`).
-/

namespace SCI90

/-- A user's answer entry: an integer, or absent (JS `undefined`). -/
abbrev Answer := Option Int

/-- JS `answer || 0`: an absent entry is replaced by `0` (an integer `0`
is falsy but `0 || 0 = 0`, so `Option.getD` is exact). -/
def jsVal (a : Answer) : Int := a.getD 0

/-- JS `answers[index - 1] || 0`: 1-based item lookup; out-of-range or
absent entries give `0`. -/
def jsGet (answers : List Answer) (index : Nat) : Int :=
  (answers.getD (index - 1) none).getD 0

/-- JS `answer > 1` where `answer` may be `undefined` (then the
comparison is false). -/
def jsGtOne : Answer → Bool
  | some n => 1 < n
  | none => false

/-- Modelled from the spec: the factor-to-item-index map `factorIndices`
is imported from `../data/questions.js`, a file missing from the
repository snapshot.  Its memberships are fixed by the `dimension`
field of each item in `getQuestions` (src/worker/index.js), and its key
order is the canonical declaration order of the 9 factors — the order
in which the scoring module's own `interpretations` table declares
them. -/
def factorIndices : List (String × List Nat) :=
  [("躯体化", [1, 4, 12, 19, 27, 40, 42, 52, 53, 56, 58, 60, 87]),
   ("强迫症状", [2, 3, 9, 10, 28, 38, 45, 46, 55, 65, 86]),
   ("人际关系敏感", [5, 18, 21, 29, 34, 36, 37, 41, 61, 69, 77, 88]),
   ("抑郁", [14, 15, 20, 26, 30, 32, 44, 54, 59, 64, 66, 71, 79, 89]),
   ("焦虑", [17, 31, 39, 48, 49, 57, 75, 78]),
   ("敌对", [6, 8, 11, 24, 63, 67, 74, 81]),
   ("恐怖", [13, 23, 25, 33, 47, 50, 70, 72, 73, 82]),
   ("偏执", [7, 22, 43, 76, 83]),
   ("精神病性", [16, 35, 51, 62, 68, 80, 84, 85, 90])]

/-- Per-factor aggregate, as built inside `calculateResult`. -/
structure FactorResult where
  score : Int
  average : Rat
  itemCount : Nat
deriving DecidableEq, Repr

/-- The record returned by `determineRiskLevel`.  `mainIssue` is a JS
value that is either a string or `null`: `none` models `null`,
`some s` models the string `s` (including the empty string). -/
structure RiskLevel where
  level : String
  color : String
  description : String
  advice : String
  mainIssue : Option String
  recommendProfessional : Bool
deriving DecidableEq, Repr

/-- The record returned by `calculateResult`. -/
structure ResultRecord where
  totalScore : Int
  totalAverage : Rat
  positiveItems : Nat
  factors : List (String × FactorResult)
  riskLevel : RiskLevel
  timestamp : String
deriving DecidableEq, Repr

/-- One step of the factor scan at the top of `determineRiskLevel`:
accumulator is `(maxFactorScore, maxFactorName, highFactorCount)`,
initially `(0, "", 0)`. -/
def scanStep (acc : Rat × String × Nat) (p : String × FactorResult) :
    Rat × String × Nat :=
  if 3 ≤ p.2.average then
    if acc.1 < p.2.average then (p.2.average, p.1, acc.2.2 + 1)
    else (acc.1, acc.2.1, acc.2.2 + 1)
  else acc

/-- The `for (const [factorName, data] of Object.entries(factors))` loop
of `determineRiskLevel`. -/
def scanFactors (factors : List (String × FactorResult)) : Rat × String × Nat :=
  factors.foldl scanStep (0, "", 0)

/-- The function `determineRiskLevel(totalScore, factors)` from the scoring module. -/
def determineRiskLevel (totalScore : Int)
    (factors : List (String × FactorResult)) : RiskLevel :=
  let s := scanFactors factors
  let maxFactorName := s.2.1
  let highFactorCount := s.2.2
  if 250 ≤ totalScore ∨ 3 ≤ highFactorCount then
    { level := "重度", color := "#e74c3c",
      description := "您的心理困扰程度较为严重",
      advice := "建议您尽快寻求专业心理医生的帮助，进行专业的心理咨询或治疗。您的心理状态需要专业的关注和支持。",
      mainIssue := some maxFactorName, recommendProfessional := true }
  else if 200 ≤ totalScore ∨ 2 ≤ highFactorCount then
    { level := "中度", color := "#e67e22",
      description := "您存在一定的心理困扰",
      advice := "您的心理状态需要关注。建议您寻求专业心理咨询师的帮助，了解如何更好地调整自己的心理状态。",
      mainIssue := some maxFactorName, recommendProfessional := true }
  else if 160 ≤ totalScore ∨ 1 ≤ highFactorCount then
    { level := "轻度", color := "#f39c12",
      description := "您存在轻微的心理困扰",
      advice := "您的心理状态总体尚可，但有些方面需要关注。建议您适当进行自我调节，保持良好的作息习惯，多进行运动和放松。如感觉困扰持续，可考虑寻求专业帮助。",
      mainIssue := some maxFactorName, recommendProfessional := false }
  else
    { level := "无明显", color := "#27ae60",
      description := "您的心理状态良好",
      advice := "您的心理状态总体良好。继续保持健康的生活方式，适当进行自我关怀，关注心理健康。",
      mainIssue := none, recommendProfessional := false }

/-- The per-factor aggregation loop of `calculateResult`. -/
def calcFactors (answers : List Answer) : List (String × FactorResult) :=
  factorIndices.map fun p =>
    let factorSum := (p.2.map fun index => jsGet answers index).sum
    (p.1, { score := factorSum,
            average := (factorSum : Rat) / (p.2.length : Rat),
            itemCount := p.2.length })

/-- The function `calculateResult(answers)` with the wall-clock timestamp made an
explicit parameter (`new Date().toISOString()` is the only
environment-dependent input). -/
def calculateResultAt (timestamp : String) (answers : List Answer) :
    ResultRecord :=
  let totalScore := (answers.map jsVal).sum
  let totalAverage := (totalScore : Rat) / 90
  let positiveItems := (answers.filter jsGtOne).length
  let factors := calcFactors answers
  { totalScore := totalScore, totalAverage := totalAverage,
    positiveItems := positiveItems, factors := factors,
    riskLevel := determineRiskLevel totalScore factors,
    timestamp := timestamp }

/-- The result of `calculateResult` at an arbitrary fixed instant; every field except
`timestamp` is independent of the instant. -/
def calculateResult (answers : List Answer) : ResultRecord :=
  calculateResultAt "" answers

/-- The quantity `highFactorCount` as the specification words it: the number of the
factors whose average is at least 3.0. -/
def highFactorCountOf (factors : List (String × FactorResult)) : Nat :=
  (factors.filter fun p => decide (3 ≤ p.2.average)).length

/-- The risk-classification decision table exactly as the specification
states it, evaluated top-to-bottom with first match winning; the pair is
`(level, recommendProfessional)`. -/
def specRiskTable (totalScore : Int) (highFactorCount : Nat) : String × Bool :=
  if 250 ≤ totalScore ∨ 3 ≤ highFactorCount then ("重度", true)
  else if 200 ≤ totalScore ∨ 2 ≤ highFactorCount then ("中度", true)
  else if 160 ≤ totalScore ∨ 1 ≤ highFactorCount then ("轻度", false)
  else ("无明显", false)

/-! ### An integer-arithmetic view of the factor aggregation

The averages are quotients of a factor's integer sum by its fixed item
count, so every comparison the engine makes can be mirrored in integer
arithmetic.  This lets concrete answer vectors be evaluated by `decide`
(the kernel cannot reduce `Rat` division). -/

/-- The per-factor data `(name, (sum, itemCount))` underlying
`calcFactors`, before the averages are formed. -/
def factorScores (answers : List Answer) : List (String × (Int × Nat)) :=
  factorIndices.map fun p =>
    (p.1, ((p.2.map fun index => jsGet answers index).sum, p.2.length))

/-- Rebuild a `FactorResult` entry from its integer data. -/
def toFactorResult (q : String × (Int × Nat)) : String × FactorResult :=
  (q.1, { score := q.2.1, average := (q.2.1 : Rat) / (q.2.2 : Rat),
          itemCount := q.2.2 })

/-- Integer mirror of `highFactorCountOf` over the factor data. -/
def hfCountI (answers : List Answer) : Nat :=
  (factorScores answers).countP fun q => decide (3 * (q.2.2 : Int) ≤ q.2.1)

/-- Integer mirror of `scanStep`: the running maximum average is kept as
the pair `(sum, count)` and comparisons are cross-multiplied. -/
def scanStepI (acc : (Int × Nat) × String × Nat) (q : String × (Int × Nat)) :
    (Int × Nat) × String × Nat :=
  if 3 * (q.2.2 : Int) ≤ q.2.1 then
    if acc.1.1 * (q.2.2 : Int) < q.2.1 * (acc.1.2 : Int) then
      (q.2, q.1, acc.2.2 + 1)
    else (acc.1, acc.2.1, acc.2.2 + 1)
  else acc

/-- Integer mirror of the factor scan of `determineRiskLevel`. -/
def scanFactorsI (answers : List Answer) : (Int × Nat) × String × Nat :=
  (factorScores answers).foldl scanStepI ((0, 1), "", 0)

/-- The all-four answer vector (every answer = 4). -/
def allFour : List Answer := List.replicate 90 (some 4)

/-- The all-zero answer vector. -/
def allZero : List Answer := List.replicate 90 (some 0)

/-- An answer vector with total score exactly 250 and every factor
average strictly below 3 (each factor's sum stays at most one below
three times its item count). -/
def v250 : List Answer :=
  [some 3, some 3, some 3, some 3, some 3, some 3, some 3, some 3, some 3, some 3,
   some 3, some 3, some 3, some 3, some 3, some 2, some 3, some 3, some 3, some 3,
   some 3, some 2, some 3, some 3, some 3, some 3, some 3, some 3, some 3, some 3,
   some 3, some 3, some 3, some 3, some 2, some 3, some 3, some 3, some 3, some 3,
   some 3, some 3, some 2, some 3, some 3, some 3, some 3, some 3, some 3, some 3,
   some 2, some 3, some 3, some 3, some 3, some 3, some 3, some 3, some 3, some 3,
   some 3, some 2, some 3, some 3, some 3, some 3, some 3, some 2, some 3, some 3,
   some 3, some 3, some 3, some 3, some 3, some 2, some 3, some 2, some 3, some 2,
   some 2, some 2, some 2, some 2, some 2, some 2, some 2, some 2, some 2, some 2]

/-- The first factor entry of `calcFactors allFour` (somatization,
13 items all answered 4). -/
def fr1 : FactorResult :=
  { score := 52, average := ((52 : Int) : Rat) / ((13 : Nat) : Rat),
    itemCount := 13 }

/-- The remaining eight factor entries of `calcFactors allFour`; every
average ties with the first factor's at 4.0. -/
def frRest : List (String × FactorResult) :=
  [("强迫症状", { score := 44, average := ((44 : Int) : Rat) / ((11 : Nat) : Rat), itemCount := 11 }),
   ("人际关系敏感", { score := 48, average := ((48 : Int) : Rat) / ((12 : Nat) : Rat), itemCount := 12 }),
   ("抑郁", { score := 56, average := ((56 : Int) : Rat) / ((14 : Nat) : Rat), itemCount := 14 }),
   ("焦虑", { score := 32, average := ((32 : Int) : Rat) / ((8 : Nat) : Rat), itemCount := 8 }),
   ("敌对", { score := 32, average := ((32 : Int) : Rat) / ((8 : Nat) : Rat), itemCount := 8 }),
   ("恐怖", { score := 40, average := ((40 : Int) : Rat) / ((10 : Nat) : Rat), itemCount := 10 }),
   ("偏执", { score := 20, average := ((20 : Int) : Rat) / ((5 : Nat) : Rat), itemCount := 5 }),
   ("精神病性", { score := 36, average := ((36 : Int) : Rat) / ((9 : Nat) : Rat), itemCount := 9 })]

/-! ### Factor interpretation lookup (`getFactorInterpretation`) -/

/-- A static per-factor interpretation entry. -/
structure Interpretation where
  description : String
  highScore : String
  suggestions : List String
deriving DecidableEq, Repr

/-- The static `interpretations` table of `getFactorInterpretation`,
keyed by factor name in declaration order. -/
def interpretations : List (String × Interpretation) :=
  [("躯体化",
    { description := "反映主观的身体不适感，包括心血管、胃肠道、呼吸系统等方面的不适。",
      highScore := "可能存在较多的身体不适主诉，如头痛、胃痛、胸闷等，这些症状可能和心理压力有关。",
      suggestions := ["尝试放松训练，如深呼吸、冥想", "保持规律的运动", "如症状持续，建议进行身体检查以排除器质性疾病"] }),
   ("强迫症状",
    { description := "主要指那些明知没有必要，但又无法摆脱的无意义的思想、冲动和行为。",
      highScore := "可能存在强迫思维或行为，如反复检查、反复思考某些问题等。",
      suggestions := ["认识并接受自己的强迫倾向", "练习延迟强迫行为", "通过转移注意力来减少强迫症状", "严重时建议寻求专业认知行为治疗"] }),
   ("人际关系敏感",
    { description := "指在人际交往中的不自在感和自卑感，特别是在与他人比较时更为突出。",
      highScore := "可能在人际交往中感到不自信，过于在意他人的评价，容易产生人际紧张。",
      suggestions := ["培养自我接纳和自我肯定", "学习有效的沟通技巧", "从小范围开始练习人际交往", "认识到他人也会感到紧张"] }),
   ("抑郁",
    { description := "反映情绪低落、悲观失望、生活兴趣减退等症状。",
      highScore := "可能存在情绪低落、兴趣减退、无望感等抑郁症状，需要特别关注。",
      suggestions := ["保持规律的作息和运动", "尝试做一些曾经喜欢的事情", "与信任的人倾诉", "如症状持续超过两周，强烈建议寻求专业帮助"] }),
   ("焦虑",
    { description := "指烦躁、坐立不安、神经过敏以及由此产生的躯体征象。",
      highScore := "可能存在明显的焦虑症状，如紧张不安、心慌、担心等。",
      suggestions := ["学习放松技巧，如渐进式肌肉放松", "练习正念冥想", "识别并挑战焦虑的想法", "避免过多摄入咖啡因"] }),
   ("敌对",
    { description := "主要从思维、情感及行为三方面来反映患者的敌对表现。",
      highScore := "可能容易产生敌对情绪，表现为易怒、发脾气、甚至有攻击倾向。",
      suggestions := ["学会识别愤怒的早期信号", "学习健康的情绪表达方式", "通过运动释放紧张情绪", "练习深呼吸等冷静技巧"] }),
   ("恐怖",
    { description := "反映对某些场景、物体或人际交往的恐惧和回避。",
      highScore := "可能对某些特定场景或物体存在明显的恐惧和回避行为。",
      suggestions := ["逐步暴露于恐惧情境（系统脱敏）", "学习放松技巧以应对恐惧", "记录并分析恐惧的想法", "严重时建议寻求专业治疗"] }),
   ("偏执",
    { description := "主要指投射性思维、敌对、猜疑、妄想、被动体验和夸大等。",
      highScore := "可能存在多疑、不信任他人、感觉自己被针对等思维模式。",
      suggestions := ["尝试检验自己的猜疑是否有证据", "学会换位思考", "培养对他人基本的信任", "与信任的朋友讨论自己的想法"] }),
   ("精神病性",
    { description := "反映各种急性症状和行为，即限定不严的精神病性过程的症状表现。",
      highScore := "可能存在一些特殊的思维体验或感知觉异常，需要专业评估。",
      suggestions := ["保持规律的作息", "避免使用精神活性物质", "减少压力", "建议寻求专业精神科医生的帮助"] })]

/-- The generic fallback used for unrecognized factor names. -/
def genericInterpretation : Interpretation :=
  { description := "心理健康评估维度之一。",
    highScore := "该维度得分偏高，建议关注。",
    suggestions := ["保持良好的生活习惯", "适当进行自我调节", "必要时寻求专业帮助"] }

/-- The names of the own properties of `Object.prototype`, the
prototype of the object literal `interpretations`: a property read at
one of these names finds the inherited value (a function, or for
`__proto__` the prototype object itself) instead of `undefined`. -/
def objectPrototypeKeys : List String :=
  ["constructor", "hasOwnProperty", "isPrototypeOf",
   "propertyIsEnumerable", "toLocaleString", "toString", "valueOf",
   "__proto__", "__defineGetter__", "__defineSetter__",
   "__lookupGetter__", "__lookupSetter__"]

/-- The possible results of the JS property read
`interpretations[factorName]`: an own entry of the literal, a truthy
value inherited from `Object.prototype`, or `undefined`. -/
inductive PropValue where
  | own (i : Interpretation)
  | inherited
  | undef
deriving DecidableEq, Repr

/-- The JS property read `interpretations[factorName]`: own properties
first, then the prototype chain (`Object.prototype`), else
`undefined`. -/
def jsGetProp (factorName : String) : PropValue :=
  match interpretations.lookup factorName with
  | some i => PropValue.own i
  | none =>
      if factorName ∈ objectPrototypeKeys then PropValue.inherited
      else PropValue.undef

/-- The record returned by `getFactorInterpretation`: the spread of the
looked-up (or fallback) value together with the computed level and
status.  Spreading contributes only own enumerable properties, so each
interpretation field may be absent (`none`) when the spread value is
an inherited function or object. -/
structure FactorInterpretation where
  description : Option String
  highScore : Option String
  suggestions : Option (List String)
  level : String
  status : String
deriving DecidableEq, Repr

/-- The function `getFactorInterpretation(factorName, averageScore)` from the
scoring module.  `interpretations[factorName] || fallback` takes the
fallback only when the read gives `undefined`; a value inherited from
`Object.prototype` is truthy, is kept, and its spread `...value`
contributes no own enumerable properties, leaving the interpretation
fields absent. -/
def getFactorInterpretation (factorName : String) (averageScore : Rat) :
    FactorInterpretation :=
  let spreadFields : Option Interpretation :=
    match jsGetProp factorName with
    | PropValue.own i => some i
    | PropValue.inherited => none
    | PropValue.undef => some genericInterpretation
  { description := spreadFields.map Interpretation.description,
    highScore := spreadFields.map Interpretation.highScore,
    suggestions := spreadFields.map Interpretation.suggestions,
    level := if 3 ≤ averageScore then "偏高"
             else if 2 ≤ averageScore then "中等" else "正常",
    status := if 3 ≤ averageScore then "warning"
              else if 2 ≤ averageScore then "attention" else "normal" }

/-- The function `parseResultFromURL()` from the scoring module, with the browser
location hash an explicit parameter and the payload decoder
(`JSON.parse` composed with `atob`, both host functions) an explicit
function whose exceptions are modelled by `Except.error`.  A JS string
is a sequence of code units, modelled by `String.data`; the marker
`#result=` is 8 ASCII characters, so `hash.startsWith('#result=')` is
the 8-character prefix test and `hash.substring(8)` drops the first 8
characters.  The `try`/`catch` maps a decoding error to `null`
(`none`), and a falsy (empty) or marker-less hash short-circuits to
`null`. -/
def parseResultFromURL {V : Type _} (hash : String)
    (decodePayload : String → Except String V) : Option V :=
  if hash ≠ "" ∧ hash.data.take 8 = "#result=".data then
    match decodePayload (String.mk (hash.data.drop 8)) with
    | Except.ok v => some v
    | Except.error _ => none
  else none

lemma scanStep_count (acc : Rat × String × Nat) (p : String × FactorResult) :
    (scanStep acc p).2.2 = acc.2.2 + (if 3 ≤ p.2.average then 1 else 0) := by
  unfold scanStep; split_ifs <;> simp

lemma scanFactors_count (fs : List (String × FactorResult)) :
    ∀ acc : Rat × String × Nat,
      (fs.foldl scanStep acc).2.2
        = acc.2.2 + fs.countP (fun p => decide (3 ≤ p.2.average)) := by
  induction fs with
  | nil => intro acc; simp
  | cons p l ih =>
      intro acc
      rw [List.foldl_cons, ih (scanStep acc p), scanStep_count,
        List.countP_cons]
      simp only [decide_eq_true_eq]
      split_ifs <;> omega

lemma scanFactors_hfCount (fs : List (String × FactorResult)) :
    (scanFactors fs).2.2 = highFactorCountOf fs := by
  rw [scanFactors, scanFactors_count, highFactorCountOf,
    List.countP_eq_length_filter]
  simp

lemma determineRiskLevel_table (ts : Int) (fs : List (String × FactorResult)) :
    ((determineRiskLevel ts fs).level,
      (determineRiskLevel ts fs).recommendProfessional)
      = specRiskTable ts (highFactorCountOf fs) := by
  have h := scanFactors_hfCount fs
  simp only [determineRiskLevel, specRiskTable, h]
  split_ifs <;> rfl

/-- C1: for every answer vector, the risk classification returned by
`calculateResult` follows the specification's decision table evaluated
top-to-bottom with first match winning (Severe at `totalScore ≥ 250` or
`highFactorCount ≥ 3` with professional help recommended, Moderate at
`≥ 200` or `≥ 2` with professional help recommended, Mild at `≥ 160` or
`≥ 1` without, otherwise None/Normal without), where `highFactorCount`
is the number of the factors whose average is at least 3.0. -/
theorem C1_risk_decision_table (answers : List Answer) :
    ((calculateResult answers).riskLevel.level,
      (calculateResult answers).riskLevel.recommendProfessional)
      = specRiskTable (calculateResult answers).totalScore
          (highFactorCountOf (calculateResult answers).factors) :=
  determineRiskLevel_table ((answers.map jsVal).sum) (calcFactors answers)

lemma calcFactors_eq (answers : List Answer) :
    calcFactors answers = (factorScores answers).map toFactorResult := by
  rw [factorScores, List.map_map]; rfl

lemma factorScores_counts_pos (answers : List Answer) :
    ∀ q ∈ factorScores answers, 0 < q.2.2 := by
  intro q hq
  rw [factorScores, List.mem_map] at hq
  obtain ⟨p, hp, rfl⟩ := hq
  revert hp
  have : ∀ p ∈ factorIndices, 0 < p.2.length := by decide
  exact fun hp => this p hp

lemma avg_ge3_iff (s : Int) (c : Nat) (hc : 0 < c) :
    (3 : Rat) ≤ (s : Rat) / (c : Rat) ↔ 3 * (c : Int) ≤ s := by
  rw [le_div_iff₀ (by exact_mod_cast hc)]
  norm_cast

lemma avg_lt_avg_iff (s₁ : Int) (c₁ : Nat) (s₂ : Int) (c₂ : Nat)
    (h₁ : 0 < c₁) (h₂ : 0 < c₂) :
    (s₁ : Rat) / (c₁ : Rat) < (s₂ : Rat) / (c₂ : Rat)
      ↔ s₁ * (c₂ : Int) < s₂ * (c₁ : Int) := by
  rw [div_lt_div_iff₀ (by exact_mod_cast h₁) (by exact_mod_cast h₂)]
  norm_cast

lemma highFactorCountOf_eq_hfCountI (answers : List Answer) :
    highFactorCountOf (calcFactors answers) = hfCountI answers := by
  rw [highFactorCountOf, ← List.countP_eq_length_filter, calcFactors_eq,
    List.countP_map, hfCountI]
  refine List.countP_congr ?_
  intro q hq
  have hc := factorScores_counts_pos answers q hq
  simp only [Function.comp, toFactorResult, decide_eq_true_eq]
  rw [avg_ge3_iff q.2.1 q.2.2 hc]

lemma scan_bridge :
    ∀ (l : List (String × (Int × Nat))) (acc : Rat × String × Nat)
      (accI : (Int × Nat) × String × Nat),
      (∀ q ∈ l, 0 < q.2.2) → 0 < accI.1.2 →
      acc.1 = (accI.1.1 : Rat) / (accI.1.2 : Rat) → acc.2 = accI.2 →
      ((l.map toFactorResult).foldl scanStep acc).2
          = (l.foldl scanStepI accI).2 := by
  intro l
  induction l with
  | nil => intro acc accI _ _ _ h4; simpa using h4
  | cons q l ih =>
      intro acc accI hpos haccI h1 h2
      have hq : 0 < q.2.2 := hpos q (List.mem_cons_self q l)
      rw [List.map_cons, List.foldl_cons, List.foldl_cons]
      have hcond : ((3 : Rat) ≤ (toFactorResult q).2.average)
          ↔ 3 * (q.2.2 : Int) ≤ q.2.1 := by
        simpa [toFactorResult] using avg_ge3_iff q.2.1 q.2.2 hq
      by_cases hqual : 3 * (q.2.2 : Int) ≤ q.2.1
      · have hcmp : (acc.1 < (toFactorResult q).2.average)
            ↔ accI.1.1 * (q.2.2 : Int) < q.2.1 * (accI.1.2 : Int) := by
          rw [h1]
          simpa [toFactorResult] using
            avg_lt_avg_iff accI.1.1 accI.1.2 q.2.1 q.2.2 haccI hq
        by_cases hgt : accI.1.1 * (q.2.2 : Int) < q.2.1 * (accI.1.2 : Int)
        · have hs : scanStep acc (toFactorResult q)
              = ((toFactorResult q).2.average, (toFactorResult q).1,
                  acc.2.2 + 1) := by
            rw [scanStep, if_pos (hcond.mpr hqual), if_pos (hcmp.mpr hgt)]
          have hsI : scanStepI accI q = (q.2, q.1, accI.2.2 + 1) := by
            rw [scanStepI, if_pos hqual, if_pos hgt]
          rw [hs, hsI]
          refine ih _ _ (fun r hr => hpos r (List.mem_cons_of_mem q hr))
            hq ?_ ?_
          · simp [toFactorResult]
          · simp [toFactorResult, h2]
        · have hs : scanStep acc (toFactorResult q)
              = (acc.1, acc.2.1, acc.2.2 + 1) := by
            rw [scanStep, if_pos (hcond.mpr hqual),
              if_neg (fun hlt => hgt (hcmp.mp hlt))]
          have hsI : scanStepI accI q = (accI.1, accI.2.1, accI.2.2 + 1) := by
            rw [scanStepI, if_pos hqual, if_neg hgt]
          rw [hs, hsI]
          refine ih _ _ (fun r hr => hpos r (List.mem_cons_of_mem q hr))
            haccI h1 ?_
          simp [h2]
      · have hs : scanStep acc (toFactorResult q) = acc := by
          rw [scanStep, if_neg (fun hge => hqual (hcond.mp hge))]
        have hsI : scanStepI accI q = accI := by
          rw [scanStepI, if_neg hqual]
        rw [hs, hsI]
        exact ih _ _ (fun r hr => hpos r (List.mem_cons_of_mem q hr))
          haccI h1 h2

lemma scanFactors_eq_scanFactorsI (answers : List Answer) :
    (scanFactors (calcFactors answers)).2 = (scanFactorsI answers).2 := by
  rw [scanFactors, calcFactors_eq, scanFactorsI]
  exact scan_bridge (factorScores answers) (0, "", 0) ((0, 1), "", 0)
    (factorScores_counts_pos answers) (by norm_num) (by norm_num) rfl

/-! ### The partition invariant: total score vs. per-factor sums -/

lemma sum_map_getD (l : List Answer) :
    ((List.range l.length).map fun i => (l.getD i none).getD 0).sum
      = (l.map jsVal).sum := by
  induction l with
  | nil => simp
  | cons a l ih =>
      simp only [List.length_cons, List.range_succ_eq_map, List.map_cons,
        List.map_map, List.sum_cons, Function.comp_def, List.getD_cons_succ,
        List.getD_cons_zero]
      rw [ih]
      rfl

lemma range'_map_jsGet (answers : List Answer) :
    ((List.range' 1 90).map fun i => jsGet answers i)
      = (List.range 90).map fun i => (answers.getD i none).getD 0 := by
  rw [List.range'_eq_map_range, List.map_map]
  refine List.map_congr_left ?_
  intro i _
  simp [jsGet]

lemma sum_map_sum {α β : Type _} [AddCommMonoid β] (L : List (List α))
    (g : α → β) :
    (L.map fun s => (s.map g).sum).sum = (L.flatten.map g).sum := by
  rw [List.map_flatten, List.sum_flatten, List.map_map]
  rfl

lemma factorIndices_partition :
    ((factorIndices.map Prod.snd).flatten).Perm (List.range' 1 90) := by
  decide

lemma factors_sum_eq (answers : List Answer) :
    ((calcFactors answers).map fun p => p.2.score).sum
      = ((List.range' 1 90).map fun i => jsGet answers i).sum := by
  have h1 : ((calcFactors answers).map fun p => p.2.score)
      = (factorIndices.map Prod.snd).map
          fun s => (s.map fun i => jsGet answers i).sum := by
    rw [calcFactors_eq, factorScores, List.map_map, List.map_map,
      List.map_map]
    rfl
  rw [h1, sum_map_sum]
  exact (factorIndices_partition.map fun i => jsGet answers i).sum_eq

lemma totalScore_take (answers : List Answer) (h : 90 ≤ answers.length) :
    ((List.range' 1 90).map fun i => jsGet answers i).sum
      = ((answers.take 90).map jsVal).sum := by
  rw [range'_map_jsGet, ← sum_map_getD (answers.take 90)]
  have hlen : (answers.take 90).length = 90 := by
    rw [List.length_take]; omega
  rw [hlen]
  refine congrArg List.sum (List.map_congr_left ?_)
  intro i hi
  rw [List.mem_range] at hi
  congr 1
  rw [List.getD_eq_getElem?_getD, List.getD_eq_getElem?_getD,
    List.getElem?_take_of_lt hi]

/-- C3: for valid 90-length answer vectors with values in 0..4, the
total score equals the sum of the 9 per-factor scores — the factor
index sets partition the item ids 1..90, so the per-factor sums add up
exactly to the total. -/
theorem C3_total_is_sum_of_factor_scores (answers : List Answer)
    (hlen : answers.length = 90)
    (_hvals : ∀ a ∈ answers, ∃ n : Int, a = some n ∧ 0 ≤ n ∧ n ≤ 4) :
    (calculateResult answers).totalScore
      = (((calculateResult answers).factors).map fun p => p.2.score).sum := by
  have h90 : 90 ≤ answers.length := hlen.ge
  have htake : answers.take 90 = answers :=
    List.take_of_length_le hlen.le
  show (answers.map jsVal).sum = ((calcFactors answers).map _).sum
  rw [factors_sum_eq, totalScore_take answers h90, htake]

/-- Witness for C3 at the all-four vector. -/
theorem C3_witness :
    (List.replicate 90 (some 4) : List Answer).length = 90 ∧
    (∀ a ∈ (List.replicate 90 (some 4) : List Answer),
      ∃ n : Int, a = some n ∧ 0 ≤ n ∧ n ≤ 4) ∧
    (calculateResult (List.replicate 90 (some 4))).totalScore
      = (((calculateResult (List.replicate 90 (some 4))).factors).map
          fun p => p.2.score).sum := by
  refine ⟨by decide, ?_, ?_⟩
  · intro a ha
    rw [List.eq_of_mem_replicate ha]
    exact ⟨4, rfl, by norm_num, by norm_num⟩
  · exact C3_total_is_sum_of_factor_scores _ (by decide)
      (fun a ha => by
        rw [List.eq_of_mem_replicate ha]
        exact ⟨4, rfl, by norm_num, by norm_num⟩)

/-- C9: for input arrays with more than 90 entries, the total score
sums every entry of the array (entries beyond index 89 included), the 9
factor scores read only the entries at item indices 1..90, and the
total average still divides by the constant 90; hence the total score
strictly exceeds the sum of the 9 factor scores whenever the excess
entries sum to a positive value. -/
theorem C9_overlength_total_vs_factors (answers : List Answer)
    (h : 90 < answers.length) :
    (calculateResult answers).totalScore
        = (((calculateResult answers).factors).map fun p => p.2.score).sum
          + ((answers.drop 90).map jsVal).sum ∧
    (calculateResult answers).totalAverage
        = ((calculateResult answers).totalScore : Rat) / 90 ∧
    (0 < ((answers.drop 90).map jsVal).sum →
      (((calculateResult answers).factors).map fun p => p.2.score).sum
        < (calculateResult answers).totalScore) := by
  have h1 : (calculateResult answers).totalScore
      = (((calculateResult answers).factors).map fun p => p.2.score).sum
        + ((answers.drop 90).map jsVal).sum := by
    show (answers.map jsVal).sum = ((calcFactors answers).map _).sum + _
    rw [factors_sum_eq, totalScore_take answers h.le]
    conv_lhs => rw [← List.take_append_drop 90 answers]
    rw [List.map_append, List.sum_append]
  refine ⟨h1, rfl, fun hpos => ?_⟩
  omega

/-- Witness for C9 at a 91-entry all-one vector (the 91st entry makes
the total exceed the factor sums by one). -/
theorem C9_witness :
    90 < (List.replicate 91 (some 1) : List Answer).length ∧
    (calculateResult (List.replicate 91 (some 1))).totalScore
      = (((calculateResult (List.replicate 91 (some 1))).factors).map
          fun p => p.2.score).sum + 1 ∧
    (((calculateResult (List.replicate 91 (some 1))).factors).map
        fun p => p.2.score).sum
      < (calculateResult (List.replicate 91 (some 1))).totalScore := by
  have h := C9_overlength_total_vs_factors (List.replicate 91 (some 1))
    (by decide)
  have htail : (((List.replicate 91 (some 1) : List Answer).drop 90).map
      jsVal).sum = 1 := by decide
  refine ⟨by decide, ?_, h.2.2 (by rw [htail]; norm_num)⟩
  have h1 := h.1
  rw [htail] at h1
  exact h1

/-! ### Branch selection and the `mainIssue` field -/

lemma calculateResult_riskLevel (answers : List Answer) :
    (calculateResult answers).riskLevel
      = determineRiskLevel ((answers.map jsVal).sum) (calcFactors answers) :=
  rfl

lemma determineRiskLevel_mainIssue (ts : Int)
    (fs : List (String × FactorResult)) :
    (determineRiskLevel ts fs).mainIssue
      = if 160 ≤ ts ∨ 1 ≤ (scanFactors fs).2.2 then
          some (scanFactors fs).2.1
        else none := by
  simp only [determineRiskLevel]
  split_ifs <;> first | rfl | omega

/-- Evaluate the observable classification of a concrete vector from
its integer-side data. -/
lemma calculateResult_eval (answers : List Answer) (ts : Int) (hf : Nat)
    (nm : String) (hts : (answers.map jsVal).sum = ts)
    (hhf : hfCountI answers = hf)
    (hnm : (scanFactorsI answers).2.1 = nm) :
    (calculateResult answers).totalScore = ts ∧
    highFactorCountOf (calculateResult answers).factors = hf ∧
    ((calculateResult answers).riskLevel.level,
      (calculateResult answers).riskLevel.recommendProfessional)
        = specRiskTable ts hf ∧
    (calculateResult answers).riskLevel.mainIssue
        = (if 160 ≤ ts ∨ 1 ≤ hf then some nm else none) := by
  have hcount : (scanFactors (calcFactors answers)).2.2 = hfCountI answers := by
    rw [scanFactors_hfCount, highFactorCountOf_eq_hfCountI]
  have hname : (scanFactors (calcFactors answers)).2.1
      = (scanFactorsI answers).2.1 :=
    congrArg Prod.fst (scanFactors_eq_scanFactorsI answers)
  refine ⟨hts, ?_, ?_, ?_⟩
  · show highFactorCountOf (calcFactors answers) = hf
    rw [highFactorCountOf_eq_hfCountI, hhf]
  · have h := determineRiskLevel_table ((answers.map jsVal).sum)
      (calcFactors answers)
    rw [← hts, ← hhf, ← highFactorCountOf_eq_hfCountI]
    exact h
  · have h := determineRiskLevel_mainIssue ((answers.map jsVal).sum)
      (calcFactors answers)
    rw [hcount, hname] at h
    rw [← hts, ← hhf, ← hnm]
    exact h

lemma scanFold_noqual :
    ∀ (l : List (String × FactorResult)) (acc : Rat × String × Nat),
      (∀ p ∈ l, ¬ (3 : Rat) ≤ p.2.average) → l.foldl scanStep acc = acc := by
  intro l
  induction l with
  | nil => intro acc _; rfl
  | cons p l ih =>
      intro acc h
      rw [List.foldl_cons,
        show scanStep acc p = acc from by
          rw [scanStep, if_neg (h p (List.mem_cons_self p l))]]
      exact ih acc fun r hr => h r (List.mem_cons_of_mem p hr)

lemma hfCount_zero_noqual (fs : List (String × FactorResult))
    (h : highFactorCountOf fs = 0) :
    ∀ p ∈ fs, ¬ (3 : Rat) ≤ p.2.average := by
  rw [highFactorCountOf, List.length_eq_zero] at h
  intro p hp hge
  have hmem : p ∈ fs.filter fun p => decide (3 ≤ p.2.average) :=
    List.mem_filter.mpr ⟨hp, by simpa using hge⟩
  rw [h] at hmem
  exact absurd hmem (List.not_mem_nil p)

lemma scanFold_max_lt {M : Rat} :
    ∀ (l : List (String × FactorResult)) (acc : Rat × String × Nat),
      acc.1 < M → (∀ p ∈ l, 3 ≤ p.2.average → p.2.average < M) →
      (l.foldl scanStep acc).1 < M := by
  intro l
  induction l with
  | nil => intro acc h _; simpa using h
  | cons p l ih =>
      intro acc h hl
      rw [List.foldl_cons]
      refine ih (scanStep acc p) ?_
        fun r hr hq => hl r (List.mem_cons_of_mem p hr) hq
      rw [scanStep]
      split_ifs with hq hgt
      · simpa using hl p (List.mem_cons_self p l) hq
      · simpa using h
      · simpa using h

lemma scanFold_keep :
    ∀ (l : List (String × FactorResult)) (acc : Rat × String × Nat),
      (∀ p ∈ l, p.2.average ≤ acc.1) →
      (l.foldl scanStep acc).1 = acc.1
        ∧ (l.foldl scanStep acc).2.1 = acc.2.1 := by
  intro l
  induction l with
  | nil => intro acc _; exact ⟨rfl, rfl⟩
  | cons p l ih =>
      intro acc h
      rw [List.foldl_cons]
      have hstep : (scanStep acc p).1 = acc.1
          ∧ (scanStep acc p).2.1 = acc.2.1 := by
        rw [scanStep]
        split_ifs with hq hgt
        · exact absurd (h p (List.mem_cons_self p l)) (not_le.mpr hgt)
        · exact ⟨rfl, rfl⟩
        · exact ⟨rfl, rfl⟩
      have hrec := ih (scanStep acc p) (by
        intro r hr
        rw [hstep.1]
        exact h r (List.mem_cons_of_mem p hr))
      exact ⟨by rw [hrec.1, hstep.1], by rw [hrec.2, hstep.2]⟩

/-- The scan keeps the first factor that attains the maximal qualifying
average: every earlier qualifying factor is strictly below it, later
factors never strictly exceed it (ties do not displace it). -/
lemma scan_first_max (l₁ l₂ : List (String × FactorResult)) (n : String)
    (d : FactorResult) (hd : 3 ≤ d.average)
    (h₁ : ∀ p ∈ l₁, 3 ≤ p.2.average → p.2.average < d.average)
    (h₂ : ∀ p ∈ l₂, p.2.average ≤ d.average) :
    (scanFactors (l₁ ++ (n, d) :: l₂)).2.1 = n := by
  rw [scanFactors, List.foldl_append, List.foldl_cons]
  have hacc : (l₁.foldl scanStep (0, "", 0)).1 < d.average :=
    scanFold_max_lt l₁ (0, "", 0)
      (lt_of_lt_of_le (by norm_num) hd) h₁
  have hstep : scanStep (l₁.foldl scanStep (0, "", 0)) (n, d)
      = (d.average, n, (l₁.foldl scanStep (0, "", 0)).2.2 + 1) := by
    rw [scanStep, if_pos hd, if_pos hacc]
  rw [hstep]
  exact (scanFold_keep l₂ _ (by simpa using h₂)).2

set_option maxRecDepth 20000 in
/-- C4: whenever the factor list splits as `l₁ ++ (n, d) :: l₂` with
`d` qualifying (average ≥ 3), every earlier qualifying factor strictly
below `d`, and no later factor strictly above `d` (so ties at the
maximum are allowed), `mainIssue` is `n` — the first factor attaining
the maximal qualifying average in the iteration order of the factor
map.  In particular, for the all-four vector the total score is 360,
every factor average is 4.0, the high-factor count is 9, the level is
Severe with professional help recommended, and `mainIssue` is the
first factor in canonical declaration order (somatization, 躯体化). -/
theorem C4_tie_break_first_factor :
    (∀ (answers : List Answer) (l₁ l₂ : List (String × FactorResult))
        (n : String) (d : FactorResult),
        calcFactors answers = l₁ ++ (n, d) :: l₂ →
        3 ≤ d.average →
        (∀ p ∈ l₁, 3 ≤ p.2.average → p.2.average < d.average) →
        (∀ p ∈ l₂, p.2.average ≤ d.average) →
        (calculateResult answers).riskLevel.mainIssue = some n) ∧
    ((calculateResult allFour).totalScore = 360 ∧
      (∀ p ∈ (calculateResult allFour).factors, p.2.average = 4) ∧
      highFactorCountOf (calculateResult allFour).factors = 9 ∧
      (calculateResult allFour).riskLevel.level = "重度" ∧
      (calculateResult allFour).riskLevel.recommendProfessional = true ∧
      (calculateResult allFour).riskLevel.mainIssue = some "躯体化") := by
  constructor
  · intro answers l₁ l₂ n d hsplit hd h₁ h₂
    have hname : (scanFactors (calcFactors answers)).2.1 = n := by
      rw [hsplit]
      exact scan_first_max l₁ l₂ n d hd h₁ h₂
    have hge1 : 1 ≤ (scanFactors (calcFactors answers)).2.2 := by
      rw [scanFactors_hfCount, hsplit, highFactorCountOf]
      have hmem : (n, d) ∈ (l₁ ++ (n, d) :: l₂).filter
          fun p => decide (3 ≤ p.2.average) :=
        List.mem_filter.mpr ⟨by simp, by simpa using hd⟩
      exact List.length_pos.mpr (List.ne_nil_of_mem hmem)
    rw [calculateResult_riskLevel, determineRiskLevel_mainIssue, hname,
      if_pos (Or.inr hge1)]
  · obtain ⟨hts, hhf, htab, hmain⟩ := calculateResult_eval allFour 360 9
      "躯体化" (by decide) (by decide) (by decide)
    refine ⟨hts, ?_, hhf, ?_, ?_, ?_⟩
    · intro p hp
      rw [show (calculateResult allFour).factors = calcFactors allFour from
        rfl, calcFactors_eq, List.mem_map] at hp
      obtain ⟨q, hq, rfl⟩ := hp
      have h4 : q.2.1 = 4 * (q.2.2 : Int) := by
        revert hq
        have hall : ∀ q ∈ factorScores allFour, q.2.1 = 4 * (q.2.2 : Int) := by
          decide
        exact fun hq => hall q hq
      have hpos := factorScores_counts_pos allFour q hq
      show ((q.2.1 : Rat)) / (q.2.2 : Rat) = 4
      rw [h4]
      push_cast
      rw [mul_div_assoc,
        div_self (Nat.cast_ne_zero.mpr hpos.ne' : ((q.2.2 : Nat) : Rat) ≠ 0),
        mul_one]
    · have h := congrArg Prod.fst htab
      simpa [specRiskTable] using h
    · have h := congrArg Prod.snd htab
      simpa [specRiskTable] using h
    · simpa using hmain

/-- Witness for C4 exercising the tie-break hypotheses at the all-four
vector: the first factor entry ties with every later one at average
4.0 and is reported as `mainIssue`. -/
theorem C4_witness :
    (3 : Rat) ≤ fr1.average ∧
    (calculateResult allFour).riskLevel.mainIssue = some "躯体化" := by
  have hd : (3 : Rat) ≤ fr1.average := by norm_num [fr1]
  refine ⟨hd, ?_⟩
  refine C4_tie_break_first_factor.1 allFour [] frRest "躯体化" fr1 rfl hd
    (fun p hp => absurd hp (List.not_mem_nil p)) ?_
  intro p hp
  fin_cases hp <;> norm_num [fr1, frRest]

set_option maxRecDepth 20000 in
/-- C5: for the all-zero 90-length answer vector, `calculateResult`
returns total score 0, positive items 0, every factor average 0, level
None/Normal (无明显), `mainIssue` null, and no professional-help
recommendation. -/
theorem C5_all_zero_vector :
    (calculateResult allZero).totalScore = 0 ∧
    (calculateResult allZero).totalAverage = 0 ∧
    (calculateResult allZero).positiveItems = 0 ∧
    (∀ p ∈ (calculateResult allZero).factors, p.2.average = 0) ∧
    (calculateResult allZero).riskLevel.level = "无明显" ∧
    (calculateResult allZero).riskLevel.mainIssue = none ∧
    (calculateResult allZero).riskLevel.recommendProfessional = false := by
  obtain ⟨hts, hhf, htab, hmain⟩ :=
    calculateResult_eval allZero 0 0 "" (by decide) (by decide) (by decide)
  refine ⟨hts, ?_, by decide, ?_, ?_, ?_, ?_⟩
  · show ((allZero.map jsVal).sum : Rat) / 90 = 0
    rw [show (allZero.map jsVal).sum = 0 from by decide]
    norm_num
  · intro p hp
    rw [show (calculateResult allZero).factors = calcFactors allZero from
      rfl, calcFactors_eq, List.mem_map] at hp
    obtain ⟨q, hq, rfl⟩ := hp
    have h0 : q.2.1 = 0 := by
      revert hq
      have hall : ∀ q ∈ factorScores allZero, q.2.1 = 0 := by decide
      exact fun hq => hall q hq
    show ((q.2.1 : Rat)) / (q.2.2 : Rat) = 0
    rw [h0]
    norm_num
  · have h := congrArg Prod.fst htab
    simpa [specRiskTable] using h
  · simpa using hmain
  · have h := congrArg Prod.snd htab
    simpa [specRiskTable] using h

set_option maxRecDepth 20000 in
/-- C2 counterexample: at a concrete vector with total score exactly
250 and no factor average at 3.0 or above, the level is Severe but
`mainIssue` is the empty string, not null. -/
theorem C2_counterexample :
    (calculateResult v250).totalScore = 250 ∧
    highFactorCountOf (calculateResult v250).factors = 0 ∧
    (calculateResult v250).riskLevel.level = "重度" ∧
    (calculateResult v250).riskLevel.mainIssue ≠ none := by
  obtain ⟨hts, hhf, htab, hmain⟩ :=
    calculateResult_eval v250 250 0 "" (by decide) (by decide) (by decide)
  refine ⟨hts, hhf, ?_, ?_⟩
  · have h := congrArg Prod.fst htab
    simpa [specRiskTable] using h
  · rw [hmain]
    simp

lemma specRiskTable_hf0 (ts : Int) :
    specRiskTable ts 0
      = (if 250 ≤ ts then ("重度", true)
         else if 200 ≤ ts then ("中度", true)
         else if 160 ≤ ts then ("轻度", false)
         else ("无明显", false)) := by
  rw [specRiskTable]
  norm_num

/-- C2 as amended: when no factor average reaches 3.0
(highFactorCount = 0) but the total score meets a level threshold —
Severe at 250, Moderate at 200, Mild at 160 — the `mainIssue` field is
the empty string (the scan's `maxFactorName` initializer), not null;
`mainIssue` is null exactly in the remaining default None/Normal
branch, where the total score is below 160. -/
theorem C2_amended_mainIssue_empty_string (answers : List Answer)
    (h0 : highFactorCountOf (calculateResult answers).factors = 0) :
    (160 ≤ (calculateResult answers).totalScore →
      (calculateResult answers).riskLevel.mainIssue = some "" ∧
      (calculateResult answers).riskLevel.level
        = (if 250 ≤ (calculateResult answers).totalScore then "重度"
           else if 200 ≤ (calculateResult answers).totalScore then "中度"
           else "轻度")) ∧
    ((calculateResult answers).totalScore < 160 →
      (calculateResult answers).riskLevel.mainIssue = none ∧
      (calculateResult answers).riskLevel.level = "无明显") := by
  have hfz : highFactorCountOf (calcFactors answers) = 0 := h0
  have hcount : (scanFactors (calcFactors answers)).2.2 = 0 := by
    rw [scanFactors_hfCount]
    exact hfz
  have hname : (scanFactors (calcFactors answers)).2.1 = "" := by
    rw [scanFactors,
      scanFold_noqual _ _ (hfCount_zero_noqual _ hfz)]
  have hmain := determineRiskLevel_mainIssue ((answers.map jsVal).sum)
    (calcFactors answers)
  rw [hcount, hname] at hmain
  have htab := determineRiskLevel_table ((answers.map jsVal).sum)
    (calcFactors answers)
  rw [hfz, specRiskTable_hf0] at htab
  have hlev : (calculateResult answers).riskLevel.level
      = (if 250 ≤ (answers.map jsVal).sum then ("重度", true)
         else if 200 ≤ (answers.map jsVal).sum then ("中度", true)
         else if 160 ≤ (answers.map jsVal).sum then ("轻度", false)
         else ("无明显", false)).1 := congrArg Prod.fst htab
  rw [show (calculateResult answers).totalScore
      = (answers.map jsVal).sum from rfl]
  constructor
  · intro hts
    refine ⟨?_, ?_⟩
    · rw [calculateResult_riskLevel, hmain, if_pos (Or.inl hts)]
    · rw [hlev]
      split_ifs <;> rfl
  · intro hts
    refine ⟨?_, ?_⟩
    · rw [calculateResult_riskLevel, hmain, if_neg (by omega)]
    · rw [hlev]
      split_ifs <;> first | rfl | omega

set_option maxRecDepth 20000 in
/-- Witness for the amended C2 at the concrete vector `v250` (total
score 250, no qualifying factor: Severe with `mainIssue` the empty
string). -/
theorem C2_witness :
    highFactorCountOf (calculateResult v250).factors = 0 ∧
    160 ≤ (calculateResult v250).totalScore ∧
    ((calculateResult v250).riskLevel.mainIssue = some "" ∧
      (calculateResult v250).riskLevel.level
        = (if 250 ≤ (calculateResult v250).totalScore then "重度"
           else if 200 ≤ (calculateResult v250).totalScore then "中度"
           else "轻度")) := by
  have h0 : highFactorCountOf (calculateResult v250).factors = 0 := by
    show highFactorCountOf (calcFactors v250) = 0
    rw [highFactorCountOf_eq_hfCountI]
    decide
  have h1 : (160 : Int) ≤ (calculateResult v250).totalScore := by
    rw [show (calculateResult v250).totalScore = 250 from by decide]
    omega
  exact ⟨h0, h1, (C2_amended_mainIssue_empty_string v250 h0).1 h1⟩

/-- C6 counterexample: "toString" is not one of the 9 factors, yet the
property read `interpretations["toString"]` finds the truthy function
inherited from `Object.prototype`, so the generic fallback is not
taken and the spread leaves every interpretation field absent; the
claim's "unknown names get the generic fallback interpretation" fails
at this name (the level thresholds still apply). -/
theorem C6_counterexample :
    ("toString" ∉ interpretations.map Prod.fst) ∧
    (getFactorInterpretation "toString" 3).description = none ∧
    (getFactorInterpretation "toString" 3).description
      ≠ some genericInterpretation.description ∧
    (getFactorInterpretation "toString" 3).level = "偏高" := by
  have hdesc : (getFactorInterpretation "toString" 3).description = none := by
    rfl
  refine ⟨by decide, hdesc, ?_, ?_⟩
  · rw [hdesc]
    simp
  · show (if (3 : Rat) ≤ (3 : Rat) then "偏高"
        else if (2 : Rat) ≤ (3 : Rat) then "中等" else "正常") = "偏高"
    norm_num

/-- C6 as amended: `getFactorInterpretation` is total: for every
factor name and every average score it returns a result, with level
偏高/warning when the average is at least 3, 中等/attention when it is
at least 2 and below 3, and 正常/normal otherwise; a name that is
neither a key of the interpretation table nor an inherited
`Object.prototype` property receives the generic fallback, while an
inherited prototype name (such as "toString") suppresses the fallback
and yields a result whose interpretation fields are all absent. -/
theorem C6_interpretation_total (factorName : String) (averageScore : Rat) :
    ((getFactorInterpretation factorName averageScore).level
        = if 3 ≤ averageScore then "偏高"
          else if 2 ≤ averageScore then "中等" else "正常") ∧
    ((getFactorInterpretation factorName averageScore).status
        = if 3 ≤ averageScore then "warning"
          else if 2 ≤ averageScore then "attention" else "normal") ∧
    (factorName ∉ interpretations.map Prod.fst →
      factorName ∉ objectPrototypeKeys →
      (getFactorInterpretation factorName averageScore).description
          = some genericInterpretation.description ∧
      (getFactorInterpretation factorName averageScore).highScore
          = some genericInterpretation.highScore ∧
      (getFactorInterpretation factorName averageScore).suggestions
          = some genericInterpretation.suggestions) ∧
    (factorName ∉ interpretations.map Prod.fst →
      factorName ∈ objectPrototypeKeys →
      (getFactorInterpretation factorName averageScore).description = none ∧
      (getFactorInterpretation factorName averageScore).highScore = none ∧
      (getFactorInterpretation factorName averageScore).suggestions
          = none) := by
  have hlookup : factorName ∉ interpretations.map Prod.fst →
      interpretations.lookup factorName = none := by
    intro hn
    rw [List.lookup_eq_none_iff]
    intro p hp
    simp only [bne_iff_ne, ne_eq]
    intro hkey
    exact hn (hkey ▸ List.mem_map_of_mem Prod.fst hp)
  refine ⟨rfl, rfl, fun hn hproto => ?_, fun hn hproto => ?_⟩
  · have hprop : jsGetProp factorName = PropValue.undef := by
      rw [jsGetProp, hlookup hn, if_neg hproto]
    simp only [getFactorInterpretation, hprop]
    exact ⟨rfl, rfl, rfl⟩
  · have hprop : jsGetProp factorName = PropValue.inherited := by
      rw [jsGetProp, hlookup hn, if_pos hproto]
    simp only [getFactorInterpretation, hprop]
    exact ⟨rfl, rfl, rfl⟩

/-- Witness for the amended C6 at the unknown name "X" (generic
fallback) and the prototype name "toString" (absent fields), both at
average 3. -/
theorem C6_witness :
    ("X" ∉ interpretations.map Prod.fst) ∧
    ("X" ∉ objectPrototypeKeys) ∧
    (getFactorInterpretation "X" 3).level = "偏高" ∧
    (getFactorInterpretation "X" 3).description
      = some genericInterpretation.description ∧
    ("toString" ∉ interpretations.map Prod.fst) ∧
    ("toString" ∈ objectPrototypeKeys) ∧
    (getFactorInterpretation "toString" 3).suggestions = none := by
  have hx1 : ("X" : String) ∉ interpretations.map Prod.fst := by decide
  have hx2 : ("X" : String) ∉ objectPrototypeKeys := by decide
  have ht1 : ("toString" : String) ∉ interpretations.map Prod.fst := by
    decide
  have ht2 : ("toString" : String) ∈ objectPrototypeKeys := by decide
  refine ⟨hx1, hx2, ?_,
    ((C6_interpretation_total "X" 3).2.2.1 hx1 hx2).1, ht1, ht2,
    ((C6_interpretation_total "toString" 3).2.2.2 ht1 ht2).2.2⟩
  rw [(C6_interpretation_total "X" 3).1, if_pos (le_refl (3 : Rat))]

/-! ### Zero substitution, determinism, and URL parsing -/

lemma jsGet_norm (answers : List Answer) (i : Nat) :
    jsGet (answers.map fun a => some (jsVal a)) i = jsGet answers i := by
  rw [jsGet, jsGet]
  by_cases h : i - 1 < answers.length
  · rw [List.getD_eq_getElem _ _ (by simpa using h),
      List.getD_eq_getElem _ _ h, List.getElem_map]
    rfl
  · rw [List.getD_eq_default _ _ (by simpa using not_lt.mp h),
      List.getD_eq_default _ _ (not_lt.mp h)]

/-- C7: for every input vector of present-or-absent integer entries,
`calculateResult` completes (it is a total function of the embedding)
and treats every absent entry exactly as the integer 0, in the total
sum, the positive-item count, and each per-factor sum alike:
substituting 0 for the absent entries changes nothing in the result. -/
theorem C7_absent_entries_are_zero (t : String) (answers : List Answer) :
    calculateResultAt t (answers.map fun a => some (jsVal a))
      = calculateResultAt t answers := by
  have h1 : (answers.map fun a => some (jsVal a)).map jsVal
      = answers.map jsVal := by
    rw [List.map_map]
    rfl
  have h2 : ((answers.map fun a => some (jsVal a)).filter jsGtOne).length
      = (answers.filter jsGtOne).length := by
    rw [← List.countP_eq_length_filter, ← List.countP_eq_length_filter,
      List.countP_map]
    refine List.countP_congr fun a _ => ?_
    cases a <;> rfl
  have h3 : calcFactors (answers.map fun a => some (jsVal a))
      = calcFactors answers := by
    rw [calcFactors, calcFactors]
    refine List.map_congr_left fun p _ => ?_
    have hsum : (p.2.map fun index =>
        jsGet (answers.map fun a => some (jsVal a)) index)
          = p.2.map fun index => jsGet answers index :=
      List.map_congr_left fun i _ => jsGet_norm answers i
    rw [hsum]
  simp only [calculateResultAt]
  rw [h1, h2, h3]

/-- C8: `calculateResult` is deterministic modulo its timestamp field:
two calls on the same answer vector agree on the total score, total
average, positive-item count, all factor results, and the full risk
level, whatever instants the two calls happen at. -/
theorem C8_deterministic_modulo_timestamp (t₁ t₂ : String)
    (answers : List Answer) :
    (calculateResultAt t₁ answers).totalScore
        = (calculateResultAt t₂ answers).totalScore ∧
    (calculateResultAt t₁ answers).totalAverage
        = (calculateResultAt t₂ answers).totalAverage ∧
    (calculateResultAt t₁ answers).positiveItems
        = (calculateResultAt t₂ answers).positiveItems ∧
    (calculateResultAt t₁ answers).factors
        = (calculateResultAt t₂ answers).factors ∧
    (calculateResultAt t₁ answers).riskLevel
        = (calculateResultAt t₂ answers).riskLevel :=
  ⟨rfl, rfl, rfl, rfl, rfl⟩

/-- C10: `parseResultFromURL` never raises: it returns `none` when the
hash is absent (empty) or does not start with "#result=", returns
`none` when decoding the payload after the 8-character marker fails,
and returns the decoded object otherwise. -/
theorem C10_parse_result_total {V : Type _} (hash : String)
    (decodePayload : String → Except String V) :
    (¬(hash ≠ "" ∧ hash.data.take 8 = "#result=".data) →
        parseResultFromURL hash decodePayload = none) ∧
    (∀ e, decodePayload (String.mk (hash.data.drop 8)) = Except.error e →
        parseResultFromURL hash decodePayload = none) ∧
    (∀ v, (hash ≠ "" ∧ hash.data.take 8 = "#result=".data) →
        decodePayload (String.mk (hash.data.drop 8)) = Except.ok v →
        parseResultFromURL hash decodePayload = some v) := by
  refine ⟨fun h => ?_, fun e he => ?_, fun v hc hv => ?_⟩
  · rw [parseResultFromURL, if_neg h]
  · rw [parseResultFromURL]
    split_ifs with hc
    · rw [he]
    · rfl
  · rw [parseResultFromURL, if_pos hc, hv]

/-- Witness for C10: the empty hash yields `none`, a well-formed hash
with a succeeding decoder yields the decoded value, and a failing
decoder yields `none`. -/
theorem C10_witness :
    parseResultFromURL "" (fun s => (Except.ok s : Except String String))
        = none ∧
    parseResultFromURL "#result=abc"
        (fun s => (Except.ok s : Except String String)) = some "abc" ∧
    parseResultFromURL "#result=abc"
        (fun s => (Except.error s : Except String String)) = none := by
  refine ⟨(C10_parse_result_total "" _).1 (by simp), ?_, ?_⟩
  · refine (C10_parse_result_total "#result=abc" _).2.2 "abc"
      ⟨by decide, by decide⟩ ?_
    show Except.ok (String.mk (("#result=abc").data.drop 8))
        = Except.ok "abc"
    rw [show String.mk (("#result=abc").data.drop 8) = "abc" from by decide]
  · exact (C10_parse_result_total "#result=abc" _).2.1
      (String.mk (("#result=abc").data.drop 8)) rfl


/-- Witness for C1 at the all-two vector (total score 180, no
qualifying factor: Moderate by total score alone). -/
theorem C1_witness :
    ((calculateResult (List.replicate 90 (some 2))).riskLevel.level,
      (calculateResult (List.replicate 90 (some 2))).riskLevel.recommendProfessional)
      = specRiskTable (calculateResult (List.replicate 90 (some 2))).totalScore
          (highFactorCountOf
            (calculateResult (List.replicate 90 (some 2))).factors) :=
  C1_risk_decision_table (List.replicate 90 (some 2))

/-- Witness for C7 at a short vector with an absent entry. -/
theorem C7_witness :
    calculateResultAt "2024-01-01T00:00:00.000Z"
        (([none, some 3] : List Answer).map fun a => some (jsVal a))
      = calculateResultAt "2024-01-01T00:00:00.000Z" [none, some 3] :=
  C7_absent_entries_are_zero "2024-01-01T00:00:00.000Z" [none, some 3]

/-- Witness for C8 at two distinct instants. -/
theorem C8_witness :
    (calculateResultAt "2024-01-01T00:00:00.000Z" [some 1, none]).totalScore
        = (calculateResultAt "2024-02-02T00:00:00.000Z"
            [some 1, none]).totalScore ∧
    (calculateResultAt "2024-01-01T00:00:00.000Z" [some 1, none]).totalAverage
        = (calculateResultAt "2024-02-02T00:00:00.000Z"
            [some 1, none]).totalAverage ∧
    (calculateResultAt "2024-01-01T00:00:00.000Z" [some 1, none]).positiveItems
        = (calculateResultAt "2024-02-02T00:00:00.000Z"
            [some 1, none]).positiveItems ∧
    (calculateResultAt "2024-01-01T00:00:00.000Z" [some 1, none]).factors
        = (calculateResultAt "2024-02-02T00:00:00.000Z"
            [some 1, none]).factors ∧
    (calculateResultAt "2024-01-01T00:00:00.000Z" [some 1, none]).riskLevel
        = (calculateResultAt "2024-02-02T00:00:00.000Z"
            [some 1, none]).riskLevel :=
  C8_deterministic_modulo_timestamp "2024-01-01T00:00:00.000Z"
    "2024-02-02T00:00:00.000Z" [some 1, none]

end SCI90
